import Mathlib

/-!
A shallow embedding of the content-resolution API routes of the church
website (events, tenant-settings, giving-page), the Stripe webhook
handler, the contact-form POST handler and the planned-visits POST
handler, together with theorems about the fallback-resolution contract.

Each Next.js route handler is embedded as a pure Lean function over an
explicit environment describing the state of the remote store (Supabase):
configuration presence, query results (`Except` for the `{data, error}`
pairs the client returns) and a flag for an unexpected thrown exception
(the catch-all branch). Database writes are modelled as an explicit list
of operations the handler performs.
-/

/-- Prefix test on character lists. -/
def listIsPrefixOf : List Char → List Char → Bool
  | [], _ => true
  | _ :: _, [] => false
  | p :: ps, c :: cs => p = c && listIsPrefixOf ps cs

/-- Occurrence test on character lists. -/
def listContains (pat : List Char) : List Char → Bool
  | [] => pat.isEmpty
  | c :: cs => listIsPrefixOf pat (c :: cs) || listContains pat cs

/-- Substring test, mirroring JavaScript `String.prototype.includes`. -/
def strIncludes (s pat : String) : Bool :=
  listContains pat.data s.data

/-- ASCII lower-casing of a character (the only case arising in the
keyword tests, whose patterns and inputs are ASCII). -/
def charLower (c : Char) : Char :=
  if 65 ≤ c.toNat ∧ c.toNat ≤ 90 then Char.ofNat (c.toNat + 32) else c

/-- Lower-casing of a string, mirroring `String.prototype.toLowerCase`
on ASCII input. -/
def strLower (s : String) : String :=
  ⟨s.data.map charLower⟩

/-- The JavaScript `x || default` idiom on an optional string: a missing
value and the empty string (both falsy) give the default. -/
def jsOrDefault (x : Option String) (d : String) : String :=
  match x with
  | some s => if s = "" then d else s
  | none => d

/-- The UTF-16 code units of a character: one unit below `0x10000`, a
surrogate pair above — `String.prototype.split` with an empty separator
splits into code units and `charCodeAt(0)` reads each. -/
def utf16CodeUnits (c : Char) : List Nat :=
  if c.toNat < 65536 then [c.toNat]
  else [55296 + (c.toNat - 65536) / 1024, 56320 + (c.toNat - 65536) % 1024]

/-- The character-code sum the gradient hash computes — split into
single code units, then `reduce((a, b) => a + b.charCodeAt(0), 0)`: the
sum of the UTF-16 code units of the string. -/
def charCodeSum (id : String) : Nat :=
  ((id.data.map utf16CodeUnits).flatten).foldl (fun a b => a + b) 0

namespace Events

/-- A row of the `events` table (the columns the route reads). -/
structure EventRow where
  id : String
  name : String
  event_date : String
  location : Option String
  description : Option String
  capacity : Option Nat
  deriving Repr, DecidableEq

/-- A row of the `event_images` table. -/
structure ImageRow where
  event_id : String
  url : String
  sort_order : Nat
  deriving Repr, DecidableEq

/-- An event in the frontend shape produced by the route's transform. -/
structure TransformedEvent where
  id : String
  name : String
  event_date : String
  location : String
  description : String
  capacity : Option Nat
  primary_image : Option ImageRow
  gradient : String
  type : String
  deriving Repr, DecidableEq

/-- The bundled default/fallback events payload (`defaultEvents`). -/
def defaultEvents : List TransformedEvent :=
  [ { id := "default-1"
    , name := "Sunday Worship Experience"
    , event_date := "2024-01-28T09:00:00"
    , location := "Main Sanctuary"
    , description := "Join us for an inspiring worship experience with contemporary music and biblical teaching."
    , capacity := some 200
    , primary_image := none
    , gradient := "from-blue-800 to-indigo-900"
    , type := "worship" }
  , { id := "default-2"
    , name := "Midweek Connection"
    , event_date := "2024-01-31T19:00:00"
    , location := "Fellowship Hall"
    , description := "Dive deeper into God\x27s word through interactive Bible study and fellowship."
    , capacity := some 50
    , primary_image := none
    , gradient := "from-purple-800 to-pink-900"
    , type := "study" }
  , { id := "default-3"
    , name := "Youth Ignite Night"
    , event_date := "2024-02-02T19:00:00"
    , location := "Youth Center"
    , description := "High-energy youth service with games, worship, and relevant messages for teens."
    , capacity := some 100
    , primary_image := none
    , gradient := "from-green-800 to-teal-900"
    , type := "youth" }
  , { id := "default-4"
    , name := "Community Outreach"
    , event_date := "2024-02-05T10:00:00"
    , location := "Community Center"
    , description := "Join us as we serve our community with love and compassion through various outreach programs."
    , capacity := some 150
    , primary_image := none
    , gradient := "from-orange-800 to-red-900"
    , type := "outreach" }
  ]

/-- The fixed gradient palette in `getEventGradient`. -/
def gradients : List String :=
  [ "from-blue-800 to-indigo-900"
  , "from-purple-800 to-pink-900"
  , "from-green-800 to-teal-900"
  , "from-orange-800 to-red-900"
  , "from-teal-800 to-cyan-900"
  , "from-rose-800 to-pink-900" ]

/-- `getEventGradient(name, id)`: sums the UTF-16 character codes of
`id` and indexes the palette by the sum modulo its length. The `name`
argument is accepted but unused, exactly as in the source. -/
def getEventGradient (_name id : String) : String :=
  let hash := charCodeSum id
  gradients.getD (hash % gradients.length) ""

/-- `getEventType(name, description)`: keyword-based categorisation over
the lower-cased concatenation of name and description. -/
def getEventType (name : String) (description : Option String) : String :=
  let content := strLower (name ++ " " ++ description.getD "")
  if strIncludes content "worship" || strIncludes content "service" || strIncludes content "sunday" then "worship"
  else if strIncludes content "youth" || strIncludes content "teen" || strIncludes content "young" then "youth"
  else if strIncludes content "study" || strIncludes content "bible" || strIncludes content "prayer" then "study"
  else if strIncludes content "outreach" || strIncludes content "community" || strIncludes content "serve" then "outreach"
  else if strIncludes content "conference" || strIncludes content "seminar" || strIncludes content "retreat" then "conference"
  else "event"

/-- The image map lookup: the first image (in the returned, sort-ordered
list) whose `event_id` matches. An errored image query contributes no
images (`const { data: images }` discards the error; `null` fails the
`images && images.length > 0` guard). -/
def primaryImageFor (images : List ImageRow) (eventId : String) : Option ImageRow :=
  (images.filter (fun img => img.event_id = eventId)).head?

/-- The per-row transform into frontend shape. -/
def transformEvent (images : List ImageRow) (event : EventRow) : TransformedEvent :=
  { id := event.id
  , name := event.name
  , event_date := event.event_date
  , location := jsOrDefault event.location "Location TBD"
  , description := jsOrDefault event.description "Join us for this special event."
  , capacity := event.capacity
  , primary_image := primaryImageFor images event.id
  , gradient := getEventGradient event.name event.id
  , type := getEventType event.name event.description }

/-- State of the remote store and environment as the events GET handler
observes it. `eventsQuery` is the `{data, error}` outcome of the primary
query (already date-filtered, ordered and limited by the store);
`imagesQuery` the outcome of the secondary `event_images` query;
`unexpectedError` models an exception thrown inside the `try` block and
caught by the catch-all. -/
structure Env where
  supabaseConfigured : Bool
  clientCreationFails : Bool
  eventsQuery : Except String (List EventRow)
  imagesQuery : Except String (List ImageRow)
  unexpectedError : Bool

/-- The JSON envelope the events route returns (always HTTP 200). -/
structure Response where
  events : List TransformedEvent
  source : String
  message : String
  deriving Repr, DecidableEq

/-- Images available to the transform: query data on success, none on
error. -/
def imagesOrEmpty : Except String (List ImageRow) → List ImageRow
  | .ok images => images
  | .error _ => []

/-- The events GET handler. -/
def GET (env : Env) : Response :=
  if env.unexpectedError then
    { events := defaultEvents
    , source := "default"
    , message := "Using default events - Unexpected error" }
  else if !env.supabaseConfigured then
    { events := defaultEvents
    , source := "default"
    , message := "Using default events - Supabase not configured" }
  else if env.clientCreationFails then
    { events := defaultEvents
    , source := "default"
    , message := "Using default events - Supabase client failed" }
  else
    match env.eventsQuery with
    | .error msg =>
        { events := defaultEvents
        , source := "default"
        , message := "Using default events - Database error: " ++ msg }
    | .ok events =>
        if events.length = 0 then
          { events := defaultEvents
          , source := "default"
          , message := "Using default events - No upcoming events found" }
        else
          let images := imagesOrEmpty env.imagesQuery
          let transformedEvents := events.map (transformEvent images)
          { events := transformedEvents
          , source := "database"
          , message := "Loaded " ++ toString transformedEvents.length ++
              " upcoming events from database" }

end Events

namespace TenantSettings

/-- A row of the `tenant_settings` table / the settings object the route
returns (the fields of the bundled default). -/
structure Settings where
  id : String
  name : String
  time_zone : String
  primary_color : String
  secondary_color : String
  description : String
  created_at : String
  updated_at : String
  deriving Repr, DecidableEq

/-- The default tenant settings object, built inline at each fallback
site with `new Date().toISOString()` for both timestamps. -/
def defaultSettings (now : String) : Settings :=
  { id := "default"
  , name := "DOCM Church"
  , time_zone := "America/New_York"
  , primary_color := "#1A202C"
  , secondary_color := "#F6E05E"
  , description := "Demonstration of Christ Ministries"
  , created_at := now
  , updated_at := now }

/-- A Supabase query error: message and code (the route inspects both). -/
structure QueryError where
  message : String
  code : String
  deriving Repr, DecidableEq

/-- The RLS test the route applies to a query error:
`error.message.includes(\x27row-level security\x27) || error.code === \x2742501\x27`. -/
def isRlsError (e : QueryError) : Bool :=
  strIncludes e.message "row-level security" || e.code = "42501"

/-- Environment for the tenant-settings GET handler: which env vars are
present, the `{data, error}` outcome of the `tenant_settings` query, and
the catch-all flag. -/
structure Env where
  urlPresent : Bool
  anonKeyPresent : Bool
  serviceKeyPresent : Bool
  settingsQuery : Except QueryError (List Settings)
  unexpectedError : Option String

/-- The JSON body of a tenant-settings response: either an error object
(with or without a `success: false` field) or a success envelope with
data, message, source and (in the catch-all) the caught error message. -/
inductive Body where
  | errorBody (error : String) (hasSuccessFalse : Bool)
  | okBody (data : Settings) (message : String) (source : String)
      (err : Option String)
  deriving Repr, DecidableEq

/-- The tenant-settings GET response: HTTP status and JSON body. -/
structure Response where
  status : Nat
  body : Body
  deriving Repr, DecidableEq

/-- The tenant-settings GET handler (`now` stands for
`new Date().toISOString()` at the time of the call). -/
def GET (env : Env) (now : String) : Response :=
  match env.unexpectedError with
  | some errMsg =>
      { status := 200
      , body := .okBody (defaultSettings now)
          "Error occurred, using default settings" "default" (some errMsg) }
  | none =>
    if !env.urlPresent || !env.anonKeyPresent then
      { status := 500, body := .errorBody "Database configuration missing" true }
    else
      match env.settingsQuery with
      | .error e =>
          if isRlsError e then
            { status := 200
            , body := .okBody (defaultSettings now)
                "Using default tenant settings - database not accessible" "default" none }
          else
            { status := 500, body := .errorBody e.message false }
      | .ok settings =>
          match settings with
          | [] =>
              { status := 200
              , body := .okBody (defaultSettings now)
                  "No tenant settings found, using defaults" "default" none }
          | first :: _ =>
              { status := 200
              , body := .okBody first "Tenant settings found" "database" none }

/-- The tenant-settings POST handler: always a 403 refusal. -/
def POST : Response :=
  { status := 403
  , body := .errorBody
      "Tenant settings creation not allowed from web frontend. Use admin panel." false }

end TenantSettings

namespace GivingPage

/-- The hero section of the giving page content. -/
structure Hero where
  first_line_text : String
  heading : String
  subheading : String
  background_image : Option String
  cta_primary : String
  cta_secondary : String
  deriving Repr, DecidableEq

/-- One giving method entry. -/
structure Method where
  id : String
  title : String
  description : String
  icon : String
  features : List String
  deriving Repr, DecidableEq

/-- The giving-methods section. -/
structure GivingMethods where
  section_title : String
  section_heading : String
  section_description : String
  methods : List Method
  deriving Repr, DecidableEq

/-- A fund designation entry. -/
structure Fund where
  id : String
  name : String
  description : String
  deriving Repr, DecidableEq

/-- One impact statistic. -/
structure Stat where
  label : String
  value : String
  description : String
  deriving Repr, DecidableEq

/-- The impact section. -/
structure Impact where
  section_title : String
  section_heading : String
  section_description : String
  stats : List Stat
  deriving Repr, DecidableEq

/-- The structured giving-page content (the `data` part of the response,
flattened alongside `source` on the wire). -/
structure Content where
  hero : Hero
  giving_methods : GivingMethods
  fund_designations : List Fund
  impact : Impact
  deriving Repr, DecidableEq

/-- The bundled default giving-page content
(`defaultGivingPageContent`). -/
def defaultGivingPageContent : Content :=
  { hero :=
    { first_line_text := "Give"
    , heading := "Your generosity changes lives."
    , subheading := "Through your faithful giving, we\x27re able to serve our community, support missions, and further God\x27s kingdom. Every gift, large or small, makes a meaningful difference."
    , background_image := none
    , cta_primary := "Make a Donation"
    , cta_secondary := "Learn More" }
  , giving_methods :=
    { section_title := "Ways to Give"
    , section_heading := "Multiple Giving Options"
    , section_description := "Choose the giving method that works best for you. All donations are secure and tax-deductible."
    , methods :=
      [ { id := "online"
        , title := "Online Giving"
        , description := "Secure, convenient giving through our website"
        , icon := "credit-card"
        , features := ["One-time or recurring", "Instant receipts", "Multiple payment methods"] }
      , { id := "text"
        , title := "Text to Give"
        , description := "Quick giving via text message"
        , icon := "phone"
        , features := ["Text amount to donate", "Set up recurring gifts", "Secure and simple"] }
      , { id := "check"
        , title := "Check or Cash"
        , description := "Traditional giving methods welcomed"
        , icon := "banknote"
        , features := ["Drop in offering", "Mail to church", "In-person giving"] } ] }
  , fund_designations :=
    [ { id := "general", name := "General Fund", description := "Supports overall church operations and ministries" }
    , { id := "building", name := "Building Fund", description := "Facility improvements and expansion projects" }
    , { id := "missions", name := "Missions", description := "Supporting missionaries and outreach efforts" }
    , { id := "youth", name := "Youth Ministry", description := "Programs and activities for young people" }
    , { id := "children", name := "Children\x27s Ministry", description := "Kids programs and Sunday school" }
    , { id := "outreach", name := "Community Outreach", description := "Local community service and support" } ]
  , impact :=
    { section_title := "Your Impact"
    , section_heading := "See How Your Gifts Make a Difference"
    , section_description := "Your faithful giving enables us to transform lives and serve our community in countless ways."
    , stats :=
      [ { label := "Families Served", value := "500+", description := "Through our food pantry and assistance programs" }
      , { label := "Youth Impacted", value := "150+", description := "Participating in youth programs and activities" }
      , { label := "Missionaries Supported", value := "12", description := "Local and international mission work" }
      , { label := "Community Events", value := "25+", description := "Annual outreach and service events" } ] } }

/-- Partial hero props carried by a `page_sections` row; spreading
`{...hero, ...props}` keeps each base field unless the props provide
it. -/
structure HeroProps where
  first_line_text : Option String := none
  heading : Option String := none
  subheading : Option String := none
  background_image : Option (Option String) := none
  cta_primary : Option String := none
  cta_secondary : Option String := none
  deriving Repr, DecidableEq

/-- `{...hero, ...props}`. -/
def Hero.merge (h : Hero) (p : HeroProps) : Hero :=
  { first_line_text := p.first_line_text.getD h.first_line_text
  , heading := p.heading.getD h.heading
  , subheading := p.subheading.getD h.subheading
  , background_image := p.background_image.getD h.background_image
  , cta_primary := p.cta_primary.getD h.cta_primary
  , cta_secondary := p.cta_secondary.getD h.cta_secondary }

/-- Partial giving-methods props carried by a `page_sections` row. -/
structure GivingMethodsProps where
  section_title : Option String := none
  section_heading : Option String := none
  section_description : Option String := none
  methods : Option (List Method) := none
  deriving Repr, DecidableEq

/-- `{...giving_methods, ...props}`. -/
def GivingMethods.merge (g : GivingMethods) (p : GivingMethodsProps) : GivingMethods :=
  { section_title := p.section_title.getD g.section_title
  , section_heading := p.section_heading.getD g.section_heading
  , section_description := p.section_description.getD g.section_description
  , methods := p.methods.getD g.methods }

/-- Partial impact props carried by a `page_sections` row. -/
structure ImpactProps where
  section_title : Option String := none
  section_heading : Option String := none
  section_description : Option String := none
  stats : Option (List Stat) := none
  deriving Repr, DecidableEq

/-- `{...impact, ...props}`. -/
def Impact.merge (i : Impact) (p : ImpactProps) : Impact :=
  { section_title := p.section_title.getD i.section_title
  , section_heading := p.section_heading.getD i.section_heading
  , section_description := p.section_description.getD i.section_description
  , stats := p.stats.getD i.stats }

/-- The `props` payload of a section row, tagged by which section shape
it carries. -/
inductive PropsVal where
  | heroP (p : HeroProps)
  | givingMethodsP (p : GivingMethodsProps)
  | impactP (p : ImpactProps)
  deriving Repr, DecidableEq

/-- A row of the `page_sections` table (the columns the switch uses). -/
structure SectionRow where
  type : String
  props : Option PropsVal
  deriving Repr, DecidableEq

/-- The switch body of the sections `forEach`: a `hero` /
`giving_methods` / `impact` row with props merges them into the
structured content; every other row leaves it unchanged. -/
def applySection (c : Content) (s : SectionRow) : Content :=
  match s.type, s.props with
  | "hero", some (.heroP p) => { c with hero := c.hero.merge p }
  | "giving_methods", some (.givingMethodsP p) =>
      { c with giving_methods := c.giving_methods.merge p }
  | "impact", some (.impactP p) => { c with impact := c.impact.merge p }
  | _, _ => c

/-- A row of the `pages` table (only its id is used downstream). -/
structure PageRow where
  id : String
  deriving Repr, DecidableEq

/-- A row of the `payment_categories` table. -/
structure FundRow where
  id : String
  name : String
  description : Option String
  deriving Repr, DecidableEq

/-- Fund mapping: `description: fund.description || "Support our " +
fund.name.toLowerCase()` — the JavaScript `||` also replaces an empty
string. -/
def mapFund (f : FundRow) : Fund :=
  { id := f.id
  , name := f.name
  , description :=
      match f.description with
      | some d => if d = "" then "Support our " ++ strLower f.name else d
      | none => "Support our " ++ strLower f.name }

/-- Environment for the giving-page GET handler. `pageQuery` is the
`.single()` outcome on `pages` (`.ok none` models a null row without
error, covering the `pageError || !pageData` guard); client-creation
throws fall under `unexpectedError`. -/
structure Env where
  pageQuery : Except String (Option PageRow)
  sectionsQuery : Except String (List SectionRow)
  fundsQuery : Except String (List FundRow)
  unexpectedError : Bool

/-- The giving-page GET response (always HTTP 200): the content fields
flattened with a `source` tag. -/
structure Response where
  status : Nat
  content : Content
  source : String
  deriving Repr, DecidableEq

/-- The fund-designation selection:
`if (!fundError && fundData && fundData.length > 0)` maps the payment
categories, otherwise the bundled defaults stand. -/
def fundsFrom (fundsQuery : Except String (List FundRow)) : List Fund :=
  match fundsQuery with
  | .ok fundData =>
      if fundData.length > 0 then fundData.map mapFund
      else defaultGivingPageContent.fund_designations
  | .error _ => defaultGivingPageContent.fund_designations

/-- The giving-page GET handler. -/
def GET (env : Env) : Response :=
  if env.unexpectedError then
    { status := 200, content := defaultGivingPageContent, source := "error_fallback" }
  else
    match env.pageQuery with
    | .error _ =>
        { status := 200, content := defaultGivingPageContent, source := "default" }
    | .ok none =>
        { status := 200, content := defaultGivingPageContent, source := "default" }
    | .ok (some _pageData) =>
        match env.sectionsQuery with
        | .error _ =>
            { status := 200, content := defaultGivingPageContent, source := "default" }
        | .ok sectionsData =>
            let fundDesignations := fundsFrom env.fundsQuery
            let structuredContent : Content :=
              { hero := defaultGivingPageContent.hero
              , giving_methods := defaultGivingPageContent.giving_methods
              , fund_designations := fundDesignations
              , impact := defaultGivingPageContent.impact }
            let finalContent := sectionsData.foldl applySection structuredContent
            { status := 200, content := finalContent, source := "database" }

end GivingPage

namespace StripeWebhook

/-- The kind of a database write. -/
inductive DbOpKind where
  | insert
  | update
  deriving Repr, DecidableEq

/-- One database write performed by a handler, identified by kind and
table. -/
structure DbOp where
  kind : DbOpKind
  table : String
  deriving Repr, DecidableEq

/-- Environment for the webhook POST handler: whether
`stripe.webhooks.constructEvent` succeeds for the request's body and
signature, the verified event's type, and (for
`invoice.payment_succeeded`) the invoice's subscription id. -/
structure Env where
  signatureValid : Bool
  eventType : String
  invoiceSubscription : Option String

/-- A webhook response: HTTP status and whether the body is
`{received: true}` (as opposed to an error object). -/
structure Response where
  status : Nat
  received : Bool
  deriving Repr, DecidableEq

/-- The database writes the event dispatch performs for a verified
event, by event type. `handleInvoicePaymentFailed` and
`handleSubscriptionCreated` only log; an `invoice.payment_succeeded`
without a subscription id returns before writing; unhandled types fall
through to the default case. -/
def eventOps (eventType : String) (invoiceSubscription : Option String) : List DbOp :=
  match eventType with
  | "payment_intent.succeeded" => [⟨.update, "transactions"⟩]
  | "payment_intent.payment_failed" => [⟨.update, "transactions"⟩]
  | "invoice.payment_succeeded" =>
      match invoiceSubscription with
      | none => []
      | some _ => [⟨.insert, "transactions"⟩]
  | "invoice.payment_failed" => []
  | "customer.subscription.created" => []
  | "customer.subscription.updated" => [⟨.update, "recurring_donations"⟩]
  | "customer.subscription.deleted" => [⟨.update, "recurring_donations"⟩]
  | _ => []

/-- The webhook POST handler, returning its response together with the
database writes it performed. Signature verification failure is caught
by the inner `catch` and returns 400 before any event handling. -/
def POST (env : Env) : Response × List DbOp :=
  if !env.signatureValid then
    ({ status := 400, received := false }, [])
  else
    ({ status := 200, received := true },
     eventOps env.eventType env.invoiceSubscription)

end StripeWebhook

namespace Contact

/-- A JavaScript value as it can arrive in the parsed JSON body for the
`newsletter` and `prayer` fields. -/
inductive JsVal where
  | vTrue
  | vFalse
  | vNull
  | vStr (s : String)
  | vNum (n : Int)
  deriving Repr, DecidableEq

/-- JavaScript truthiness of such a value. -/
def JsVal.truthy : JsVal → Bool
  | .vTrue => true
  | .vFalse => false
  | .vNull => false
  | .vStr s => s ≠ ""
  | .vNum n => n ≠ 0

/-- The opt-in test `v === true || v === \x27true\x27 || v === 1`, used for
both `newsletter` and `prayer`. -/
def JsVal.optedIn : JsVal → Bool
  | .vTrue => true
  | .vStr s => s = "true"
  | .vNum n => n = 1
  | _ => false

/-- The parsed contact-form body. String fields are absent (`none`) or
present; JavaScript truthiness treats the empty string like absence. -/
structure Body where
  name : Option String
  email : Option String
  phone : Option String
  subject : Option String
  category : Option String
  message : Option String
  newsletter : JsVal
  prayer : JsVal
  deriving Repr, DecidableEq

/-- Truthiness of an optional string field. -/
def truthy : Option String → Bool
  | some s => s ≠ ""
  | none => false

/-- Environment for the contact POST handler: the `{data, error}`
outcomes of the four possible inserts, plus the generated ids and
timestamp. -/
structure Env where
  newsletterInsert : Except String Unit
  websiteInsert : Except String Unit
  fallbackInsert : Except String Unit
  prayerInsert : Except String Unit
  submissionId : String
  prayerId : String
  timestamp : String

/-- One attempted insert: target table and the `id` column of the row
(none for `newsletter_subscribers`, whose rows carry no explicit id). -/
structure InsertOp where
  table : String
  rowId : Option String
  deriving Repr, DecidableEq

/-- The contact POST response fields the handler can produce. -/
structure Response where
  status : Nat
  success : Bool
  error : Option String
  submission_id : Option String
  deriving Repr, DecidableEq

/-- `prayer === true || prayer === \x27true\x27 || prayer === 1 ||
category === \x27Prayer Request\x27`. -/
def isPrayerRequest (body : Body) : Bool :=
  body.prayer.optedIn || body.category = some "Prayer Request"

/-- The contact POST handler, returning its response together with the
inserts it attempted, in order. -/
def POST (body : Body) (env : Env) : Response × List InsertOp :=
  if !truthy body.name || !truthy body.email || !truthy body.subject ||
      !truthy body.message then
    ({ status := 400, success := false, error := some "Missing required fields"
     , submission_id := none }, [])
  else
    let newsletterOps :=
      if body.newsletter.optedIn then [InsertOp.mk "newsletter_subscribers" none]
      else []
    let websiteOp := InsertOp.mk "website_messages" (some env.submissionId)
    match env.websiteInsert with
    | .error _ =>
        let fallbackOp := InsertOp.mk "contact_submissions" (some env.submissionId)
        match env.fallbackInsert with
        | .error _ =>
            ({ status := 500, success := false
             , error := some "Failed to submit contact form"
             , submission_id := none },
             newsletterOps ++ [websiteOp, fallbackOp])
        | .ok _ =>
            let prayerOps :=
              if isPrayerRequest body then [InsertOp.mk "prayer_requests" (some env.prayerId)]
              else []
            ({ status := 200, success := true, error := none
             , submission_id := some env.submissionId },
             newsletterOps ++ [websiteOp, fallbackOp] ++ prayerOps)
    | .ok _ =>
        let prayerOps :=
          if isPrayerRequest body then [InsertOp.mk "prayer_requests" (some env.prayerId)]
          else []
        ({ status := 200, success := true, error := none
         , submission_id := some env.submissionId },
         newsletterOps ++ [websiteOp] ++ prayerOps)

end Contact

namespace PlannedVisits

/-- The parsed planned-visit form body (the fields the handler uses). -/
structure FormData where
  firstName : Option String
  lastName : Option String
  email : Option String
  phone : Option String
  eventType : String
  preferredDate : Option String
  preferredTime : Option String
  groupSize : Int
  firstTimeVisitor : Bool
  specialNeeds : Option String
  howHeardAboutUs : Option String
  additionalNotes : Option String
  deriving Repr, DecidableEq

/-- Truthiness of an optional string field. -/
def truthy : Option String → Bool
  | some s => s ≠ ""
  | none => false

/-- The `eventTypeMap` lookup with its `|| formData.eventType`
fallback. -/
def eventNameFor (eventType : String) : String :=
  match eventType with
  | "sunday-service" => "Sunday Worship Service"
  | "youth-night" => "Youth Night"
  | "bible-study" => "Bible Study"
  | "community-outreach" => "Community Outreach"
  | "special-event" => "Special Event"
  | other => other

/-- The `planned_visits` row the handler inserts (the fields derived
from the form; `event_date` is the combined date/time rendering and
`now` the shared timestamp). -/
structure VisitRow where
  contact_id : String
  event_name : String
  event_date : String
  event_time : String
  interest_level : String
  how_heard_about_us : Option String
  coming_with_others : Bool
  companions_count : Int
  companions_details : Option String
  special_needs : Option String
  contact_preference : String
  notes : Option String
  status : String
  deriving Repr, DecidableEq

/-- Construction of the inserted `planned_visits` row from the form
data. `companions_count` is `Math.max(0, groupSize - 1)` and
`coming_with_others` is `groupSize > 1`. -/
def mkVisitRow (formData : FormData) (contactId eventDate : String) : VisitRow :=
  { contact_id := contactId
  , event_name := eventNameFor formData.eventType
  , event_date := eventDate
  , event_time := jsOrDefault formData.preferredTime "10:00"
  , interest_level := "interested"
  , how_heard_about_us :=
      if truthy formData.howHeardAboutUs then formData.howHeardAboutUs else none
  , coming_with_others := formData.groupSize > 1
  , companions_count := max 0 (formData.groupSize - 1)
  , companions_details :=
      if formData.groupSize > 1 then
        some ("Group of " ++ toString formData.groupSize ++ " people")
      else none
  , special_needs :=
      if truthy formData.specialNeeds then formData.specialNeeds else none
  , contact_preference := "email"
  , notes :=
      if truthy formData.additionalNotes then formData.additionalNotes else none
  , status := "pending" }

/-- Environment for the planned-visits POST handler: contact lookup and
the two inserts. A thrown Supabase error anywhere lands in the catch. -/
structure Env where
  contactLookup : Except String (Option String)
  contactInsert : Except String String
  visitInsert : Except String String
  eventDate : String

/-- The planned-visits POST outcome: HTTP status, and on success the
inserted row. -/
structure Response where
  status : Nat
  insertedRow : Option VisitRow
  deriving Repr, DecidableEq

/-- The planned-visits POST handler. Validation failure returns 400; a
failing contact lookup (other than not-found), contact insert or visit
insert throws into the catch and returns 500; otherwise the row is
inserted and 200 returned. -/
def POST (formData : FormData) (env : Env) : Response :=
  if !truthy formData.firstName || !truthy formData.lastName ||
      !truthy formData.email || formData.eventType = "" ||
      !truthy formData.preferredDate then
    { status := 400, insertedRow := none }
  else
    match env.contactLookup with
    | .error _ => { status := 500, insertedRow := none }
    | .ok lookup =>
        let contactResult : Except String String :=
          match lookup with
          | some existingId => .ok existingId
          | none => env.contactInsert
        match contactResult with
        | .error _ => { status := 500, insertedRow := none }
        | .ok contactId =>
            let row := mkVisitRow formData contactId env.eventDate
            match env.visitInsert with
            | .error _ => { status := 500, insertedRow := none }
            | .ok _visitId => { status := 200, insertedRow := some row }

end PlannedVisits

/-! ## Concrete sample states used by counterexamples and witnesses -/

/-- A sample upcoming-events row as the store could return it. -/
def sampleEventRow : Events.EventRow :=
  { id := "evt-1"
  , name := "Prayer Night"
  , event_date := "2030-01-01T19:00:00"
  , location := none
  , description := none
  , capacity := none }

/-- A sample `event_images` row for that event. -/
def sampleImageRow : Events.ImageRow :=
  { event_id := "evt-1", url := "https://cdn.example.com/img.png", sort_order := 1 }

/-- Events store state: unreachable database (the primary query errors). -/
def eventsEnvUnreachable : Events.Env :=
  { supabaseConfigured := true
  , clientCreationFails := false
  , eventsQuery := .error "TypeError: fetch failed"
  , imagesQuery := .error "TypeError: fetch failed"
  , unexpectedError := false }

/-- Events store state: an unexpected exception is thrown. -/
def eventsEnvThrow : Events.Env :=
  { supabaseConfigured := true
  , clientCreationFails := false
  , eventsQuery := .ok []
  , imagesQuery := .ok []
  , unexpectedError := true }

/-- Events store state: reachable but with zero upcoming events. -/
def eventsEnvEmpty : Events.Env :=
  { supabaseConfigured := true
  , clientCreationFails := false
  , eventsQuery := .ok []
  , imagesQuery := .ok []
  , unexpectedError := false }

/-- Events store state: one row, with one image. -/
def eventsEnvDb : Events.Env :=
  { supabaseConfigured := true
  , clientCreationFails := false
  , eventsQuery := .ok [sampleEventRow]
  , imagesQuery := .ok [sampleImageRow]
  , unexpectedError := false }

/-- Events store state: one row, but the image lookup fails. -/
def eventsEnvDbNoImages : Events.Env :=
  { supabaseConfigured := true
  , clientCreationFails := false
  , eventsQuery := .ok [sampleEventRow]
  , imagesQuery := .error "permission denied for table event_images"
  , unexpectedError := false }

/-- A fixed timestamp standing for `new Date().toISOString()`. -/
def nowStamp : String := "2024-06-01T12:00:00.000Z"

/-- Tenant-settings state: Supabase configuration missing. -/
def tenantEnvNoConfig : TenantSettings.Env :=
  { urlPresent := false
  , anonKeyPresent := false
  , serviceKeyPresent := false
  , settingsQuery := .ok []
  , unexpectedError := none }

/-- Tenant-settings state: the query fails with a non-RLS error. -/
def tenantEnvDbError : TenantSettings.Env :=
  { urlPresent := true
  , anonKeyPresent := true
  , serviceKeyPresent := true
  , settingsQuery := .error { message := "connection refused", code := "XX000" }
  , unexpectedError := none }

/-- Tenant-settings state: the query is rejected by row-level
security. -/
def tenantEnvRls : TenantSettings.Env :=
  { urlPresent := true
  , anonKeyPresent := true
  , serviceKeyPresent := false
  , settingsQuery := .error
      { message := "new row violates row-level security policy", code := "42501" }
  , unexpectedError := none }

/-- Tenant-settings state: reachable, zero rows. -/
def tenantEnvEmpty : TenantSettings.Env :=
  { urlPresent := true
  , anonKeyPresent := true
  , serviceKeyPresent := true
  , settingsQuery := .ok []
  , unexpectedError := none }

/-- A sample `tenant_settings` row. -/
def sampleSettingsRow : TenantSettings.Settings :=
  { id := "t-1"
  , name := "Sample Church"
  , time_zone := "Europe/London"
  , primary_color := "#000000"
  , secondary_color := "#FFFFFF"
  , description := "A sample tenant"
  , created_at := "2023-01-01T00:00:00.000Z"
  , updated_at := "2023-01-01T00:00:00.000Z" }

/-- Tenant-settings state: one row present. -/
def tenantEnvRow : TenantSettings.Env :=
  { urlPresent := true
  , anonKeyPresent := true
  , serviceKeyPresent := true
  , settingsQuery := .ok [sampleSettingsRow]
  , unexpectedError := none }

/-- Tenant-settings state: an unexpected exception is thrown. -/
def tenantEnvThrow : TenantSettings.Env :=
  { urlPresent := true
  , anonKeyPresent := true
  , serviceKeyPresent := true
  , settingsQuery := .ok []
  , unexpectedError := some "TypeError: fetch failed" }

/-- Giving-page state: an unexpected exception is thrown. -/
def givingEnvThrow : GivingPage.Env :=
  { pageQuery := .ok none
  , sectionsQuery := .ok []
  , fundsQuery := .ok []
  , unexpectedError := true }

/-- Giving-page state: the page row is found, no sections or funds. -/
def givingEnvDb : GivingPage.Env :=
  { pageQuery := .ok (some { id := "page-giving" })
  , sectionsQuery := .ok []
  , fundsQuery := .ok []
  , unexpectedError := false }

/-- Webhook state: a request whose signature fails verification. -/
def stripeEnvBadSig : StripeWebhook.Env :=
  { signatureValid := false
  , eventType := "payment_intent.succeeded"
  , invoiceSubscription := none }

/-- A contact-form body with all required fields present. -/
def contactBodyOk : Contact.Body :=
  { name := some "Jane Doe"
  , email := some "jane@example.com"
  , phone := none
  , subject := some "Hello"
  , category := none
  , message := some "Hi there"
  , newsletter := .vFalse
  , prayer := .vFalse }

/-- Contact store state: `website_messages` insert fails, the fallback
succeeds. -/
def contactEnvFallback : Contact.Env :=
  { newsletterInsert := .ok ()
  , websiteInsert := .error "relation website_messages does not exist"
  , fallbackInsert := .ok ()
  , prayerInsert := .ok ()
  , submissionId := "sub-1"
  , prayerId := "pr-1"
  , timestamp := nowStamp }

/-- A valid planned-visit form with a group of three. -/
def visitFormGroup3 : PlannedVisits.FormData :=
  { firstName := some "John"
  , lastName := some "Smith"
  , email := some "john@example.com"
  , phone := none
  , eventType := "sunday-service"
  , preferredDate := some "2030-05-05"
  , preferredTime := none
  , groupSize := 3
  , firstTimeVisitor := true
  , specialNeeds := none
  , howHeardAboutUs := none
  , additionalNotes := none }

/-- Planned-visits store state: no existing contact, both inserts
succeed. -/
def visitEnvOk : PlannedVisits.Env :=
  { contactLookup := .ok none
  , contactInsert := .ok "contact-1"
  , visitInsert := .ok "visit-1"
  , eventDate := "2030-05-05T10:00:00.000Z" }

/-! ## Claims -/

/-- C8: for every Stripe webhook POST whose signature fails verification
against the endpoint secret, the handler returns status 400 and performs
no database operation. -/
theorem C8_webhook_bad_signature_atomic (env : StripeWebhook.Env)
    (h : env.signatureValid = false) :
    (StripeWebhook.POST env).1.status = 400 ∧ (StripeWebhook.POST env).2 = [] := by
  unfold StripeWebhook.POST
  rw [h]
  exact ⟨rfl, rfl⟩

/-- C8 witness: the theorem applied to a concrete bad-signature request. -/
theorem C8_webhook_bad_signature_atomic_witness :
    (StripeWebhook.POST stripeEnvBadSig).1.status = 400 ∧
    (StripeWebhook.POST stripeEnvBadSig).2 = [] :=
  C8_webhook_bad_signature_atomic stripeEnvBadSig rfl

/-- The companion fields of the constructed `planned_visits` row, for
any form data. -/
theorem mkVisitRow_companions (formData : PlannedVisits.FormData)
    (contactId eventDate : String) :
    (PlannedVisits.mkVisitRow formData contactId eventDate).coming_with_others =
      decide (formData.groupSize > 1) ∧
    (PlannedVisits.mkVisitRow formData contactId eventDate).companions_count =
      max 0 (formData.groupSize - 1) ∧
    0 ≤ (PlannedVisits.mkVisitRow formData contactId eventDate).companions_count ∧
    ((PlannedVisits.mkVisitRow formData contactId eventDate).coming_with_others = false →
      (PlannedVisits.mkVisitRow formData contactId eventDate).companions_count = 0) := by
  refine ⟨rfl, rfl, le_max_left 0 _, ?_⟩
  intro hfalse
  simp only [PlannedVisits.mkVisitRow, decide_eq_false_iff_not, not_lt] at hfalse
  show max 0 (formData.groupSize - 1) = 0
  exact max_eq_left (by omega)

/-- C10: every accepted planned-visit submission with group size `g`
yields an inserted row with `coming_with_others = (g > 1)` and
`companions_count = max 0 (g - 1)`; hence `companions_count` is never
negative and is `0` whenever `coming_with_others` is false. -/
theorem C10_planned_visit_companions (formData : PlannedVisits.FormData)
    (env : PlannedVisits.Env) (r : PlannedVisits.VisitRow)
    (h : (PlannedVisits.POST formData env).insertedRow = some r) :
    r.coming_with_others = decide (formData.groupSize > 1) ∧
    r.companions_count = max 0 (formData.groupSize - 1) ∧
    0 ≤ r.companions_count ∧
    (r.coming_with_others = false → r.companions_count = 0) := by
  obtain ⟨lookup, contactIns, visitIns, eventDate⟩ := env
  cases lookup with
  | error e =>
      simp only [PlannedVisits.POST] at h
      split at h <;> simp at h
  | ok found =>
      cases found with
      | some existingId =>
          cases visitIns with
          | error ve =>
              simp only [PlannedVisits.POST] at h
              split at h <;> simp at h
          | ok vid =>
              simp only [PlannedVisits.POST] at h
              split at h
              · simp at h
              · simp only [Option.some.injEq] at h
                exact h ▸ mkVisitRow_companions formData existingId eventDate
      | none =>
          cases contactIns with
          | error ce =>
              simp only [PlannedVisits.POST] at h
              split at h <;> simp at h
          | ok newId =>
              cases visitIns with
              | error ve =>
                  simp only [PlannedVisits.POST] at h
                  split at h <;> simp at h
              | ok vid =>
                  simp only [PlannedVisits.POST] at h
                  split at h
                  · simp at h
                  · simp only [Option.some.injEq] at h
                    exact h ▸ mkVisitRow_companions formData newId eventDate

/-- The row the concrete group-of-three submission inserts. -/
def visitRowGroup3 : PlannedVisits.VisitRow :=
  PlannedVisits.mkVisitRow visitFormGroup3 "contact-1" visitEnvOk.eventDate

/-- C10 witness: the theorem applied to an accepted concrete submission
with group size 3. -/
theorem C10_planned_visit_companions_witness :
    visitRowGroup3.coming_with_others = true ∧
    visitRowGroup3.companions_count = 2 := by
  have h := C10_planned_visit_companions visitFormGroup3 visitEnvOk visitRowGroup3 rfl
  exact ⟨h.1.trans (by decide), h.2.1.trans (by decide)⟩

/-- C1 counterexample: with Supabase configuration missing, the
tenant-settings GET handler surfaces an HTTP 500 error response with no
data — refuting "the resolve operation ... never surfaces an error
response to its caller" for every resource kind and input state. -/
theorem C1_totality_counterexample :
    (TenantSettings.GET tenantEnvNoConfig nowStamp).status = 500 ∧
    (TenantSettings.GET tenantEnvNoConfig nowStamp).body =
      .errorBody "Database configuration missing" true := ⟨rfl, rfl⟩

/-- C1 (amended): the events handler always returns a 200 envelope with
a non-empty events payload tagged `database` or `default`, and the
giving-page handler always returns a 200 envelope; the tenant-settings
handler returns a 200 success envelope only on those input states where
configuration is present and any query error is an RLS rejection —
otherwise it surfaces a 500 error response. -/
theorem C1_totality_amended :
    (∀ env : Events.Env,
        (Events.GET env).events ≠ [] ∧
        ((Events.GET env).source = "database" ∨ (Events.GET env).source = "default")) ∧
    (∀ env : GivingPage.Env, (GivingPage.GET env).status = 200) ∧
    (∀ (env : TenantSettings.Env) (now : String),
        (env.unexpectedError = none →
          env.urlPresent = true → env.anonKeyPresent = true →
          (∀ e, env.settingsQuery = Except.error e → TenantSettings.isRlsError e = true) →
          (TenantSettings.GET env now).status = 200) ∧
        ((env.urlPresent = false ∨ env.anonKeyPresent = false) →
          env.unexpectedError = none →
          (TenantSettings.GET env now).status = 500)) := by
  refine ⟨?_, ?_, ?_⟩
  · intro env
    obtain ⟨cfg, fails, q, imgs, unexp⟩ := env
    cases unexp
    · cases cfg
      · exact ⟨List.cons_ne_nil _ _, Or.inr rfl⟩
      · cases fails
        · cases q with
          | error msg => exact ⟨List.cons_ne_nil _ _, Or.inr rfl⟩
          | ok rows =>
              cases rows with
              | nil => exact ⟨List.cons_ne_nil _ _, Or.inr rfl⟩
              | cons first rest => exact ⟨List.cons_ne_nil _ _, Or.inl rfl⟩
        · exact ⟨List.cons_ne_nil _ _, Or.inr rfl⟩
    · exact ⟨List.cons_ne_nil _ _, Or.inr rfl⟩
  · intro env
    obtain ⟨pq, sq, fq, unexp⟩ := env
    cases unexp
    · cases pq with
      | error e => rfl
      | ok pd =>
          cases pd
          · rfl
          · cases sq with
            | error e => rfl
            | ok sections => rfl
    · rfl
  · intro env now
    constructor
    · intro hno hurl hanon herr
      obtain ⟨url, anon, svc, q, unexp⟩ := env
      simp only at hno hurl hanon herr
      subst hno hurl hanon
      cases q with
      | error e =>
          have := herr e rfl
          simp only [TenantSettings.GET, Bool.not_true, Bool.or_self, Bool.false_eq_true,
            if_false, this, if_true]
      | ok settings => cases settings <;> rfl
    · intro hmiss hno
      obtain ⟨url, anon, svc, q, unexp⟩ := env
      simp only at hmiss hno
      subst hno
      rcases hmiss with h | h <;> subst h <;> cases q <;>
        first
          | rfl
          | (cases url <;> rfl)

/-- C1 witness: the amended totality at concrete input states — an
unreachable store for events, a found page for giving, an RLS-rejected
tenant-settings query, and a missing tenant-settings configuration. -/
theorem C1_totality_amended_witness :
    (Events.GET eventsEnvUnreachable).events ≠ [] ∧
    (GivingPage.GET givingEnvDb).status = 200 ∧
    (TenantSettings.GET tenantEnvRls nowStamp).status = 200 ∧
    (TenantSettings.GET tenantEnvNoConfig nowStamp).status = 500 :=
  ⟨(C1_totality_amended.1 eventsEnvUnreachable).1,
   C1_totality_amended.2.1 givingEnvDb,
   (C1_totality_amended.2.2 tenantEnvRls nowStamp).1 rfl rfl rfl
     (fun e he => by
       simp only [tenantEnvRls] at he
       cases he
       decide),
   (C1_totality_amended.2.2 tenantEnvNoConfig nowStamp).2 (Or.inl rfl) rfl⟩

/-- C2 counterexample: when the events resolution hits the catch-all for
an unexpected error, the envelope is tagged `default`, not
`error_fallback` — refuting the claim for every resource kind. -/
theorem C2_error_fallback_counterexample :
    (Events.GET eventsEnvThrow).source ≠ "error_fallback" ∧
    (Events.GET eventsEnvThrow).source = "default" := ⟨by decide, rfl⟩

/-- C2 (amended): when the fetch raises an unexpected error, `data`
equals the bundled default payload for the resource kind; only the
giving-page handler tags the envelope `error_fallback`, while the events
handler and the tenant-settings handler tag it `default`. -/
theorem C2_error_fallback_amended :
    (∀ env : GivingPage.Env, env.unexpectedError = true →
        GivingPage.GET env =
          { status := 200
          , content := GivingPage.defaultGivingPageContent
          , source := "error_fallback" }) ∧
    (∀ env : Events.Env, env.unexpectedError = true →
        (Events.GET env).events = Events.defaultEvents ∧
        (Events.GET env).source = "default") ∧
    (∀ (env : TenantSettings.Env) (now errMsg : String),
        env.unexpectedError = some errMsg →
        TenantSettings.GET env now =
          { status := 200
          , body := .okBody (TenantSettings.defaultSettings now)
              "Error occurred, using default settings" "default" (some errMsg) }) := by
  refine ⟨?_, ?_, ?_⟩
  · intro env h
    unfold GivingPage.GET
    rw [h]
    rfl
  · intro env h
    unfold Events.GET
    rw [h]
    exact ⟨rfl, rfl⟩
  · intro env now errMsg h
    unfold TenantSettings.GET
    rw [h]

/-- C2 witness: the amended behaviour at concrete throwing states of all
three handlers. -/
theorem C2_error_fallback_amended_witness :
    GivingPage.GET givingEnvThrow =
      { status := 200
      , content := GivingPage.defaultGivingPageContent
      , source := "error_fallback" } ∧
    (Events.GET eventsEnvThrow).events = Events.defaultEvents ∧
    TenantSettings.GET tenantEnvThrow nowStamp =
      { status := 200
      , body := .okBody (TenantSettings.defaultSettings nowStamp)
          "Error occurred, using default settings" "default"
          (some "TypeError: fetch failed") } :=
  ⟨C2_error_fallback_amended.1 givingEnvThrow rfl,
   (C2_error_fallback_amended.2.1 eventsEnvThrow rfl).1,
   C2_error_fallback_amended.2.2 tenantEnvThrow nowStamp "TypeError: fetch failed" rfl⟩

/-- C3 counterexample: a transient failure of the tenant-settings fetch
(a non-RLS database error, e.g. the store unreachable) is answered with
an HTTP 500 carrying the raw error message, not with the default payload
tagged `default` — refuting the claim for every resolution. -/
theorem C3_transient_default_counterexample :
    (TenantSettings.GET tenantEnvDbError nowStamp).status = 500 ∧
    (TenantSettings.GET tenantEnvDbError nowStamp).body =
      .errorBody "connection refused" false := ⟨rfl, rfl⟩

/-- C3 (amended): for the events route every transient failure — missing
configuration, client-creation failure, or a database error — returns
the bundled default events (exactly 4 of them) with source `default` and
a non-empty diagnostic message, and the tenant-settings route returns
the bundled default settings with source `default` on an RLS policy
rejection; but the tenant-settings route surfaces a 500 error response
when its configuration is missing or the query fails with a non-RLS
error. -/
theorem C3_transient_default_amended :
    Events.defaultEvents.length = 4 ∧
    (∀ env : Events.Env, env.unexpectedError = false →
        (env.supabaseConfigured = false ∨ env.clientCreationFails = true ∨
          ∃ msg, env.eventsQuery = Except.error msg) →
        (Events.GET env).events = Events.defaultEvents ∧
        (Events.GET env).source = "default" ∧
        (Events.GET env).message ≠ "") ∧
    (∀ (env : TenantSettings.Env) (now : String) (e : TenantSettings.QueryError),
        env.unexpectedError = none → env.urlPresent = true →
        env.anonKeyPresent = true → env.settingsQuery = Except.error e →
        TenantSettings.isRlsError e = true →
        TenantSettings.GET env now =
          { status := 200
          , body := .okBody (TenantSettings.defaultSettings now)
              "Using default tenant settings - database not accessible" "default" none }) := by
  refine ⟨rfl, ?_, ?_⟩
  · intro env hno hfail
    obtain ⟨cfg, fails, q, imgs, unexp⟩ := env
    simp only at hno hfail
    subst hno
    cases cfg
    · refine ⟨rfl, rfl, ?_⟩
      show ¬("Using default events - Supabase not configured" = "")
      decide
    · cases fails
      · rcases hfail with h | h | ⟨msg, h⟩
        · exact absurd h (by decide)
        · exact absurd h (by decide)
        · subst h
          refine ⟨rfl, rfl, ?_⟩
          show ¬("Using default events - Database error: " ++ msg = "")
          intro hcontra
          have hl := congrArg String.length hcontra
          rw [String.length_append] at hl
          have h39 : ("Using default events - Database error: " : String).length = 39 := rfl
          have h0 : ("" : String).length = 0 := rfl
          rw [h39, h0] at hl
          omega
      · refine ⟨rfl, rfl, ?_⟩
        show ¬("Using default events - Supabase client failed" = "")
        decide
  · intro env now e hno hurl hanon hq hrls
    obtain ⟨url, anon, svc, q, unexp⟩ := env
    simp only at hno hurl hanon hq
    subst hno hurl hanon hq
    simp only [TenantSettings.GET, Bool.not_true, Bool.or_self, Bool.false_eq_true,
      if_false, hrls, if_true]

/-- C3 witness: the amended behaviour at concrete states — events with
the store unreachable give the 4 bundled defaults, tenant-settings under
RLS rejection gives default settings, and a non-RLS tenant error gives a
500. -/
theorem C3_transient_default_amended_witness :
    (Events.GET eventsEnvUnreachable).events = Events.defaultEvents ∧
    Events.defaultEvents.length = 4 ∧
    TenantSettings.GET tenantEnvRls nowStamp =
      { status := 200
      , body := .okBody (TenantSettings.defaultSettings nowStamp)
          "Using default tenant settings - database not accessible" "default" none } :=
  ⟨(C3_transient_default_amended.2.1 eventsEnvUnreachable rfl
      (Or.inr (Or.inr ⟨"TypeError: fetch failed", rfl⟩))).1,
   C3_transient_default_amended.1,
   C3_transient_default_amended.2.2 tenantEnvRls nowStamp
     { message := "new row violates row-level security policy", code := "42501" }
     rfl rfl rfl rfl (by decide)⟩

/-- C4: whenever the fetch succeeds with at least one row, the envelope
is tagged `database` and its data is the request-specific transform of
the fetched rows: events are mapped through `transformEvent` (primary
image, location and description defaults, derived gradient and type),
tenant-settings returns the first fetched row, and the giving page folds
the fetched sections over the default-content skeleton with the fetched
fund designations. -/
theorem C4_database_success_transform :
    (∀ (env : Events.Env) (first : Events.EventRow) (rest : List Events.EventRow),
        env.unexpectedError = false → env.supabaseConfigured = true →
        env.clientCreationFails = false →
        env.eventsQuery = Except.ok (first :: rest) →
        (Events.GET env).source = "database" ∧
        (Events.GET env).events =
          (first :: rest).map
            (Events.transformEvent (Events.imagesOrEmpty env.imagesQuery))) ∧
    (∀ (env : TenantSettings.Env) (now : String) (first : TenantSettings.Settings)
        (rest : List TenantSettings.Settings),
        env.unexpectedError = none → env.urlPresent = true →
        env.anonKeyPresent = true → env.settingsQuery = Except.ok (first :: rest) →
        TenantSettings.GET env now =
          { status := 200
          , body := .okBody first "Tenant settings found" "database" none }) ∧
    (∀ (env : GivingPage.Env) (page : GivingPage.PageRow)
        (sections : List GivingPage.SectionRow),
        env.unexpectedError = false → env.pageQuery = Except.ok (some page) →
        env.sectionsQuery = Except.ok sections →
        (GivingPage.GET env).source = "database" ∧
        (GivingPage.GET env).content =
          sections.foldl GivingPage.applySection
            { hero := GivingPage.defaultGivingPageContent.hero
            , giving_methods := GivingPage.defaultGivingPageContent.giving_methods
            , fund_designations := GivingPage.fundsFrom env.fundsQuery
            , impact := GivingPage.defaultGivingPageContent.impact }) := by
  refine ⟨?_, ?_, ?_⟩
  · intro env first rest hno hcfg hfails hq
    obtain ⟨cfg, fails, q, imgs, unexp⟩ := env
    simp only at hno hcfg hfails hq
    subst hno hcfg hfails hq
    exact ⟨rfl, rfl⟩
  · intro env now first rest hno hurl hanon hq
    obtain ⟨url, anon, svc, q, unexp⟩ := env
    simp only at hno hurl hanon hq
    subst hno hurl hanon hq
    rfl
  · intro env page sections hno hpq hsq
    obtain ⟨pq, sq, fq, unexp⟩ := env
    simp only at hno hpq hsq
    subst hno hpq hsq
    exact ⟨rfl, rfl⟩

/-- C4 witness: the theorem at concrete one-row states of all three
handlers. -/
theorem C4_database_success_transform_witness :
    ((Events.GET eventsEnvDb).source = "database" ∧
      (Events.GET eventsEnvDb).events =
        [sampleEventRow].map
          (Events.transformEvent (Events.imagesOrEmpty eventsEnvDb.imagesQuery))) ∧
    TenantSettings.GET tenantEnvRow nowStamp =
      { status := 200
      , body := .okBody sampleSettingsRow "Tenant settings found" "database" none } ∧
    (GivingPage.GET givingEnvDb).source = "database" :=
  ⟨C4_database_success_transform.1 eventsEnvDb sampleEventRow [] rfl rfl rfl rfl,
   C4_database_success_transform.2.1 tenantEnvRow nowStamp sampleSettingsRow [] rfl rfl rfl rfl,
   (C4_database_success_transform.2.2 givingEnvDb { id := "page-giving" } [] rfl rfl rfl).1⟩

/-- C5 counterexample: with the store reachable and zero upcoming
events, the events envelope's message is the route-specific
"Using default events - No upcoming events found", not the claimed
"No records found". -/
theorem C5_empty_message_counterexample :
    (Events.GET eventsEnvEmpty).events = Events.defaultEvents ∧
    (Events.GET eventsEnvEmpty).source = "default" ∧
    (Events.GET eventsEnvEmpty).message ≠ "No records found" ∧
    (Events.GET eventsEnvEmpty).message =
      "Using default events - No upcoming events found" :=
  ⟨rfl, rfl, by decide, rfl⟩

/-- C5 (amended): when the remote call succeeds with zero rows, the
envelope's data equals exactly the bundled default payload for the
resource kind with source `default`, but the diagnostic message is
route-specific — "Using default events - No upcoming events found" for
events and "No tenant settings found, using defaults" for
tenant-settings — rather than "No records found". -/
theorem C5_empty_default_amended :
    (∀ env : Events.Env, env.unexpectedError = false →
        env.supabaseConfigured = true → env.clientCreationFails = false →
        env.eventsQuery = Except.ok [] →
        Events.GET env =
          { events := Events.defaultEvents
          , source := "default"
          , message := "Using default events - No upcoming events found" }) ∧
    (∀ (env : TenantSettings.Env) (now : String),
        env.unexpectedError = none → env.urlPresent = true →
        env.anonKeyPresent = true → env.settingsQuery = Except.ok [] →
        TenantSettings.GET env now =
          { status := 200
          , body := .okBody (TenantSettings.defaultSettings now)
              "No tenant settings found, using defaults" "default" none }) := by
  constructor
  · intro env hno hcfg hfails hq
    obtain ⟨cfg, fails, q, imgs, unexp⟩ := env
    simp only at hno hcfg hfails hq
    subst hno hcfg hfails hq
    rfl
  · intro env now hno hurl hanon hq
    obtain ⟨url, anon, svc, q, unexp⟩ := env
    simp only at hno hurl hanon hq
    subst hno hurl hanon hq
    rfl

/-- C5 witness: the amended behaviour at concrete empty-result states of
the events and tenant-settings handlers. -/
theorem C5_empty_default_amended_witness :
    Events.GET eventsEnvEmpty =
      { events := Events.defaultEvents
      , source := "default"
      , message := "Using default events - No upcoming events found" } ∧
    TenantSettings.GET tenantEnvEmpty nowStamp =
      { status := 200
      , body := .okBody (TenantSettings.defaultSettings nowStamp)
          "No tenant settings found, using defaults" "default" none } :=
  ⟨C5_empty_default_amended.1 eventsEnvEmpty rfl rfl rfl rfl,
   C5_empty_default_amended.2 tenantEnvEmpty nowStamp rfl rfl rfl rfl⟩

/-- Every event transformed with an empty image list carries
`primary_image = none`. -/
theorem transform_no_images_primary_none (rows : List Events.EventRow) :
    ∀ e ∈ rows.map (Events.transformEvent []), e.primary_image = none := by
  intro e he
  rcases List.mem_map.1 he with ⟨r, _, rfl⟩
  rfl

/-- C6: when the primary events fetch succeeds but the secondary
`event_images` lookup fails (query error) or returns no rows, the
resolution is not aborted: every returned event has
`primary_image = none` and the envelope stays tagged `database`. -/
theorem C6_image_lookup_failure_degrades (env : Events.Env)
    (first : Events.EventRow) (rest : List Events.EventRow)
    (hno : env.unexpectedError = false) (hcfg : env.supabaseConfigured = true)
    (hfails : env.clientCreationFails = false)
    (hq : env.eventsQuery = Except.ok (first :: rest))
    (himg : (∃ msg, env.imagesQuery = Except.error msg) ∨
      env.imagesQuery = Except.ok []) :
    (Events.GET env).source = "database" ∧
    ∀ e ∈ (Events.GET env).events, e.primary_image = none := by
  obtain ⟨cfg, fails, q, imgs, unexp⟩ := env
  simp only at hno hcfg hfails hq himg
  subst hno hcfg hfails hq
  rcases himg with ⟨msg, himg⟩ | himg <;> subst himg
  · exact ⟨rfl, transform_no_images_primary_none (first :: rest)⟩
  · exact ⟨rfl, transform_no_images_primary_none (first :: rest)⟩

/-- C6 witness: the theorem at a concrete one-event state whose image
lookup errors. -/
theorem C6_image_lookup_failure_degrades_witness :
    (Events.GET eventsEnvDbNoImages).source = "database" ∧
    (Events.transformEvent [] sampleEventRow).primary_image = none :=
  ⟨(C6_image_lookup_failure_degrades eventsEnvDbNoImages sampleEventRow [] rfl rfl rfl rfl
      (Or.inl ⟨"permission denied for table event_images", rfl⟩)).1,
   (C6_image_lookup_failure_degrades eventsEnvDbNoImages sampleEventRow [] rfl rfl rfl rfl
      (Or.inl ⟨"permission denied for table event_images", rfl⟩)).2
     (Events.transformEvent [] sampleEventRow) (List.Mem.head _)⟩

/-- C7: resolution is deterministic — resolving the same request against
an unchanged store state yields identical data; the derived gradient is
a function of the row's id alone (independent of the name argument) and
always one of the six palette entries, and the row transform is a
deterministic function of the row contents. -/
theorem C7_resolve_deterministic :
    (∀ env₁ env₂ : Events.Env, env₁ = env₂ →
        Events.GET env₁ = Events.GET env₂) ∧
    (∀ name₁ name₂ id : String,
        Events.getEventGradient name₁ id = Events.getEventGradient name₂ id) ∧
    (∀ name id : String, Events.getEventGradient name id ∈ Events.gradients) ∧
    (∀ (images : List Events.ImageRow) (r₁ r₂ : Events.EventRow), r₁ = r₂ →
        Events.transformEvent images r₁ = Events.transformEvent images r₂) := by
  have hmem : ∀ i : Nat,
      Events.gradients.getD (i % Events.gradients.length) "" ∈ Events.gradients := by
    intro i
    show Events.gradients.getD (i % 6) "" ∈ Events.gradients
    have hlt : i % 6 < 6 := Nat.mod_lt _ (by omega)
    have hcases : i % 6 = 0 ∨ i % 6 = 1 ∨ i % 6 = 2 ∨ i % 6 = 3 ∨
        i % 6 = 4 ∨ i % 6 = 5 := by omega
    rcases hcases with h | h | h | h | h | h <;> rw [h] <;> decide
  refine ⟨?_, ?_, ?_, ?_⟩
  · intro env₁ env₂ h
    rw [h]
  · intro name₁ name₂ id
    rfl
  · intro name id
    exact hmem (charCodeSum id)
  · intro images r₁ r₂ h
    rw [h]

/-- C7 witness: determinism at a concrete store state and concrete
rows. -/
theorem C7_resolve_deterministic_witness :
    Events.GET eventsEnvDb = Events.GET eventsEnvDb ∧
    Events.getEventGradient "a" "default-1" = Events.getEventGradient "b" "default-1" ∧
    Events.getEventGradient "a" "default-1" ∈ Events.gradients ∧
    Events.transformEvent [] sampleEventRow = Events.transformEvent [] sampleEventRow :=
  ⟨C7_resolve_deterministic.1 eventsEnvDb eventsEnvDb rfl,
   C7_resolve_deterministic.2.1 "a" "b" "default-1",
   C7_resolve_deterministic.2.2.1 "a" "default-1",
   C7_resolve_deterministic.2.2.2 [] sampleEventRow sampleEventRow rfl⟩

/-- C9: for every contact POST with all required fields present, the
handler first attempts the `website_messages` insert; the
`contact_submissions` fallback (with the same generated submission id)
is attempted exactly when that insert fails; the response has status 500
iff both inserts fail, and otherwise is a 200 success carrying the
submission id — the newsletter and prayer inserts never affect the
outcome. -/
theorem C9_contact_write_fallback (body : Contact.Body) (env : Contact.Env)
    (hname : Contact.truthy body.name = true)
    (hemail : Contact.truthy body.email = true)
    (hsubject : Contact.truthy body.subject = true)
    (hmessage : Contact.truthy body.message = true) :
    ((Contact.POST body env).1.status = 500 ↔
      ((∃ e, env.websiteInsert = Except.error e) ∧
        (∃ e, env.fallbackInsert = Except.error e))) ∧
    (Contact.InsertOp.mk "website_messages" (some env.submissionId) ∈
      (Contact.POST body env).2) ∧
    (∀ e, env.websiteInsert = Except.error e →
      Contact.InsertOp.mk "contact_submissions" (some env.submissionId) ∈
        (Contact.POST body env).2) ∧
    (env.websiteInsert = Except.ok () →
      Contact.InsertOp.mk "contact_submissions" (some env.submissionId) ∉
        (Contact.POST body env).2) ∧
    ((Contact.POST body env).1.status ≠ 500 →
      (Contact.POST body env).1.status = 200 ∧
      (Contact.POST body env).1.success = true ∧
      (Contact.POST body env).1.submission_id = some env.submissionId) := by
  obtain ⟨nIns, wIns, fIns, pIns, sid, pid, ts⟩ := env
  simp only
  unfold Contact.POST
  rw [hname, hemail, hsubject, hmessage]
  simp only [Bool.not_true, Bool.or_self, Bool.false_eq_true, if_false]
  cases wIns with
  | ok u =>
      cases u
      refine ⟨?_, ?_, ?_, ?_, ?_⟩
      · simp
      · simp [List.mem_append]
      · intro e he
        exact absurd he (by simp)
      · intro _ hmem
        by_cases hn : body.newsletter.optedIn <;>
          by_cases hp : Contact.isPrayerRequest body <;>
            simp [hn, hp, List.mem_append] at hmem
      · intro _
        exact ⟨rfl, rfl, rfl⟩
  | error we =>
      cases fIns with
      | ok u =>
          cases u
          refine ⟨?_, ?_, ?_, ?_, ?_⟩
          · simp
          · simp [List.mem_append]
          · intro e he
            simp [List.mem_append]
          · intro hok
            exact absurd hok (by simp)
          · intro _
            exact ⟨rfl, rfl, rfl⟩
      | error fe =>
          refine ⟨?_, ?_, ?_, ?_, ?_⟩
          · exact ⟨fun _ => ⟨⟨we, rfl⟩, ⟨fe, rfl⟩⟩, fun _ => rfl⟩
          · simp [List.mem_append]
          · intro e he
            simp [List.mem_append]
          · intro hok
            exact absurd hok (by simp)
          · intro hne
            exact absurd rfl hne

/-- C9 witness: the theorem at a concrete submission whose
`website_messages` insert fails and whose fallback succeeds. -/
theorem C9_contact_write_fallback_witness :
    Contact.InsertOp.mk "website_messages" (some "sub-1") ∈
      (Contact.POST contactBodyOk contactEnvFallback).2 ∧
    Contact.InsertOp.mk "contact_submissions" (some "sub-1") ∈
      (Contact.POST contactBodyOk contactEnvFallback).2 ∧
    (Contact.POST contactBodyOk contactEnvFallback).1.status = 200 ∧
    (Contact.POST contactBodyOk contactEnvFallback).1.submission_id = some "sub-1" := by
  have h := C9_contact_write_fallback contactBodyOk contactEnvFallback rfl rfl rfl rfl
  refine ⟨h.2.1, h.2.2.1 "relation website_messages does not exist" rfl, ?_, ?_⟩
  · exact (h.2.2.2.2 (by decide)).1
  · exact (h.2.2.2.2 (by decide)).2.2
